import Mathlib

/-!
Verification of the synthetic generation & scheduling engine of the
solar-dashboard data API.

Shallow embedding conventions:
- JS `number` values are modelled as `ℚ` (exact arithmetic); integer hour
  counters as `ℤ`.
- Timestamps are minutes since the Unix epoch (`ℤ`); the process time zone is
  taken to be UTC, so `Date.setHours(h,0,0,0)` on a day-start instant `d`
  becomes `d + h * 60`.
- `Math.random()` draws are explicit parameters ranging over `[0, 1]`.
- `Math.round` is `jsRound` (round half toward positive infinity).
- JS string comparison (`<`, `<=` on ISO date strings) is code-unit
  lexicographic comparison, modelled by `charListLt` / `strLeJs`.
- The Mongo store is a list of records; `countDocuments` with the
  `serialNumber` / `timestamp`-range filter used by the scheduler is a filter
  over that list; `insertMany` is list append.
-/

namespace SolarDashboard

/-- Code-unit lexicographic `<` on character lists, the order JS uses for
string comparison of ISO date strings. -/
def charListLt : List Char → List Char → Bool
  | [], [] => false
  | [], _ :: _ => true
  | _ :: _, [] => false
  | a :: as, b :: bs => if a < b then true else if b < a then false else charListLt as bs

/-- JS `a < b` on strings. -/
def strLtJs (a b : String) : Bool := charListLt a.data b.data

/-- JS `a <= b` on strings (negation of `b < a`). -/
def strLeJs (a b : String) : Bool := !(strLtJs b a)

/-- JS `Math.round`: round half toward positive infinity. -/
def jsRound (x : ℚ) : ℤ := ⌊x + 1/2⌋

/-- A persisted energy generation record
(src/infrastructure/entities/EnergyGenerationRecord, as built by
`DataGenerationScheduler.generateRecordsForUnit`). -/
structure EnergyRecord where
  serialNumber : String
  solarUnitId : String
  timestamp : ℤ
  energyGenerated : ℚ
  peakPower : ℚ
  efficiency : ℚ
  temperature : ℚ
  deriving DecidableEq, Repr

/-- An active solar unit as returned by the core-backend registry.
`capacity` is `none` when the field is absent. -/
structure SolarUnit where
  _id : String
  serialNumber : String
  name : String
  capacity : Option ℚ
  deriving DecidableEq, Repr

/-- `unit.capacity || 5000`: absent (`undefined`) and the falsy value `0`
both fall back to the 5000 default. -/
def effectiveCapacity (u : SolarUnit) : ℚ :=
  match u.capacity with
  | none => 5000
  | some c => if c = 0 then 5000 else c

/-- `DataGenerationScheduler.calculateEnergyGeneration(hour, capacity)`;
`rand` is the `Math.random()` draw of the branch that uses one. -/
def calculateEnergyGeneration (hour : ℤ) (capacity : ℚ) (rand : ℚ) : ℚ :=
  if 22 ≤ hour ∨ hour < 6 then 0
  else if 6 ≤ hour ∧ hour < 12 then
    let factor : ℚ := ((hour : ℚ) - 6) / 6
    let baseGeneration := capacity * (7/10) * factor
    let variation := rand * (2/10) - 1/10
    max 0 (baseGeneration * (1 + variation))
  else if 12 ≤ hour ∧ hour < 14 then
    let baseGeneration := capacity * (75/100)
    let variation := rand * (15/100) - 75/1000
    baseGeneration * (1 + variation)
  else if 14 ≤ hour ∧ hour < 20 then
    let factor : ℚ := 1 - ((hour : ℚ) - 14) / 6
    let baseGeneration := capacity * (7/10) * factor
    let variation := rand * (2/10) - 1/10
    max 0 (baseGeneration * (1 + variation))
  else if 20 ≤ hour ∧ hour < 22 then
    max 0 (capacity * (1/10) * rand)
  else 0

/-- One record of the batch built by `generateRecordsForUnit`: the body of the
`for (let hour = 0; hour < 24; hour += 2)` loop. `rEnergy`, `rEff`, `rTemp`
are the `Math.random()` draws for the curve variation, the efficiency and the
temperature. -/
def mkRecord (u : SolarUnit) (date : ℤ) (hour : ℤ) (rEnergy rEff rTemp : ℚ) : EnergyRecord :=
  let energyGenerated := calculateEnergyGeneration hour (effectiveCapacity u) rEnergy
  { serialNumber := u.serialNumber
    solarUnitId := u._id
    timestamp := date + hour * 60
    energyGenerated := energyGenerated
    peakPower := if 0 < energyGenerated then energyGenerated * (12/10) else 0
    efficiency := if 0 < energyGenerated then 85 + rEff * 10 else 0
    temperature := 25 + rTemp * 15 }

/-- The hours visited by `for (let hour = 0; hour < 24; hour += 2)`. -/
def slotHours : List ℤ := [0, 2, 4, 6, 8, 10, 12, 14, 16, 18, 20, 22]

/-- The 12-record batch built by `generateRecordsForUnit` before the
existence check. `rand h i` is the i-th `Math.random()` draw of slot `h`. -/
def synthesizeRecords (u : SolarUnit) (date : ℤ) (rand : ℤ → ℕ → ℚ) : List EnergyRecord :=
  slotHours.map (fun h => mkRecord u date h (rand h 0) (rand h 1) (rand h 2))

/-- The persistent record store. -/
abbrev Store := List EnergyRecord

/-- The filter used by the scheduler's `countDocuments` call:
`serialNumber` equality and `timestamp ∈ [lo, hi)`. -/
def matchesQuery (serial : String) (lo hi : ℤ) (r : EnergyRecord) : Bool :=
  (r.serialNumber == serial) && decide (lo ≤ r.timestamp) && decide (r.timestamp < hi)

/-- `EnergyGenerationRecord.countDocuments({serialNumber, timestamp: {$gte: lo, $lt: hi}})`. -/
def countDocuments (store : Store) (serial : String) (lo hi : ℤ) : ℕ :=
  (store.filter (matchesQuery serial lo hi)).length

/-- Outcome of one `generateRecordsForUnit` call. -/
inductive UnitOutcome where
  | generated (n : ℕ)
  | skipped
  deriving DecidableEq, Repr

/-- Minutes in `24 * 60 * 60 * 1000` milliseconds. -/
def minutesPerDay : ℤ := 24 * 60

/-- `DataGenerationScheduler.generateRecordsForUnit(unit, date)` acting on a
store: build the 12-record batch, count existing records for the unit's day
window, skip if any exist, otherwise insert the batch. -/
def generateRecordsForUnit (u : SolarUnit) (date : ℤ) (rand : ℤ → ℕ → ℚ) (store : Store) :
    Store × UnitOutcome :=
  let records := synthesizeRecords u date rand
  let existingCount := countDocuments store u.serialNumber date (date + minutesPerDay)
  if existingCount > 0 then (store, .skipped)
  else (store ++ records, .generated records.length)

/-- An entry of `ANOMALY_PATTERNS` (seed script). Absent JS fields are
`none` / `false`. `apply`'s first argument is the `Math.random()` draw used
by the transforms that need one. -/
structure AnomalyPattern where
  type : String
  date : Option String := none
  startHour : Option ℤ := none
  endHour : Option ℤ := none
  nightOnly : Bool := false
  dateRange : Option (String × String) := none
  apply : ℚ → EnergyRecord → EnergyRecord

/-- ZERO_GENERATION: Dec 1 2025, hours [10,14): force energy to 0. -/
def ZERO_GENERATION : AnomalyPattern :=
  { type := "ZERO_GENERATION", date := some "2025-12-01", startHour := some 10, endHour := some 14,
    apply := fun _ r => { r with energyGenerated := 0 } }

/-- SUDDEN_DROP: Dec 5 2025, hours [9,15): multiply energy by 0.3, rounded. -/
def SUDDEN_DROP : AnomalyPattern :=
  { type := "SUDDEN_DROP", date := some "2025-12-05", startHour := some 9, endHour := some 15,
    apply := fun _ r => { r with energyGenerated := (jsRound (r.energyGenerated * (3/10)) : ℚ) } }

/-- CAPACITY_FACTOR: Dec 10-16 2025 (inclusive date range): multiply energy
by 0.4, rounded. -/
def CAPACITY_FACTOR : AnomalyPattern :=
  { type := "CAPACITY_FACTOR", dateRange := some ("2025-12-10", "2025-12-16"),
    apply := fun _ r => { r with energyGenerated := (jsRound (r.energyGenerated * (4/10)) : ℚ) } }

/-- IRREGULAR_PATTERN: Dec 8 2025 (all hours): multiply energy by 2.5 when
`Math.random() > 0.5`, else by 0.4, rounded. -/
def IRREGULAR_PATTERN : AnomalyPattern :=
  { type := "IRREGULAR_PATTERN", date := some "2025-12-08",
    apply := fun rand r =>
      let spike : ℚ := if rand > 1/2 then 5/2 else 4/10
      { r with energyGenerated := (jsRound (r.energyGenerated * spike) : ℚ) } }

/-- IRREGULAR_PATTERN_NIGHT: Dec 3 2025, night only: override energy with
`50 + Math.random() * 100`. -/
def IRREGULAR_PATTERN_NIGHT : AnomalyPattern :=
  { type := "IRREGULAR_PATTERN_NIGHT", date := some "2025-12-03", nightOnly := true,
    apply := fun rand r => { r with energyGenerated := 50 + rand * 100 } }

/-- The ordered anomaly rule list of the seed script. -/
def ANOMALY_PATTERNS : List AnomalyPattern :=
  [ZERO_GENERATION, SUDDEN_DROP, CAPACITY_FACTOR, IRREGULAR_PATTERN, IRREGULAR_PATTERN_NIGHT]

/-- The per-pattern `shouldApplyPattern` computation of the seed loop:
date-equality check with optional hour window or night-only restriction,
possibly overridden to `true` by the date-range check. -/
def shouldApplyPattern (p : AnomalyPattern) (dateString : String) (hour : ℤ) : Bool :=
  let dateCheck : Bool :=
    match p.date with
    | some d =>
      if dateString = d then
        match p.startHour, p.endHour with
        | some sh, some eh => decide (sh ≤ hour) && decide (hour < eh)
        | _, _ => if p.nightOnly then decide (hour < 6) || decide (hour > 20) else true
      else false
    | none => false
  match p.dateRange with
  | some range => if strLeJs range.1 dateString && strLeJs dateString range.2 then true else dateCheck
  | none => dateCheck

/-- The `for (const pattern of ANOMALY_PATTERNS) ... break` loop of the seed
script: first matching rule's transform is applied, later rules are not
evaluated; no match returns the record unchanged with `isAnomaly = false`. -/
def applyAnomalyPatterns (patterns : List AnomalyPattern) (dateString : String) (hour : ℤ)
    (rand : ℚ) (record : EnergyRecord) : EnergyRecord × Bool :=
  match patterns with
  | [] => (record, false)
  | p :: rest =>
    if shouldApplyPattern p dateString hour then (p.apply rand record, true)
    else applyAnomalyPatterns rest dateString hour rand record

/-- The `for (const unit of solarUnits)` loop with its per-unit `try/catch`:
`act u store` is the (fallible) per-unit generation against the store; an
error is caught and logged, and the loop continues with the next unit. The
second component records, per unit id, whether its generation succeeded. -/
def runUnitsOnce (act : SolarUnit → Store → Except String Store) :
    List SolarUnit → Store → Store × List (String × Bool)
  | [], store => (store, [])
  | u :: rest, store =>
    match act u store with
    | .ok store' =>
      let r := runUnitsOnce act rest store'
      (r.1, (u._id, true) :: r.2)
    | .error _ =>
      let r := runUnitsOnce act rest store
      (r.1, (u._id, false) :: r.2)

/-- `DataGenerationScheduler.generateDailyData()`: the registry fetch result
is the first argument; its failure is rethrown by the outer `catch`. An empty
unit list returns early (no per-unit work). Otherwise the per-unit loop runs
with per-unit error isolation. -/
def generateDailyData (registry : Except String (List SolarUnit))
    (act : SolarUnit → Store → Except String Store) (store : Store) :
    Except String (Store × List (String × Bool)) :=
  match registry with
  | .error e => .error e
  | .ok units =>
    if units.length = 0 then .ok (store, [])
    else .ok (runUnitsOnce act units store)

/-- Number of iterations of `for (let i = 0; i < days; i++)` when `days` is
an arbitrary JS number: the integers `0, 1, ...` below `days`. -/
def historicalDayCount (days : ℚ) : ℕ := (⌈days⌉).toNat

/-- `DataGenerationScheduler.generateHistoricalData(days)`: fetch the unit
list (failure rethrown), then for each `i < days` run the per-unit loop for
the day `today − i` at midnight. -/
def generateHistoricalData (days : ℚ) (registry : Except String (List SolarUnit))
    (act : SolarUnit → ℤ → Store → Except String Store) (todayMidnight : ℤ) (store : Store) :
    Except String (Store × List (String × Bool)) :=
  match registry with
  | .error e => .error e
  | .ok units =>
    .ok ((List.range (historicalDayCount days)).foldl
      (fun (acc : Store × List (String × Bool)) (i : ℕ) =>
        let date := todayMidnight - minutesPerDay * (i : ℤ)
        let r := runUnitsOnce (fun u s => act u date s) units acc.1
        (r.1, acc.2 ++ r.2))
      (store, []))

/-- `req.body?.days || 7` of the POST /generate-historical-data route:
a missing field and the falsy value `0` fall back to 7; everything else is
passed through unvalidated. -/
def resolveDays (bodyDays : Option ℚ) : ℚ :=
  match bodyDays with
  | none => 7
  | some d => if d = 0 then 7 else d

/-- HTTP-level outcome of the admin route. -/
structure AdminResponse where
  status : ℕ
  success : Bool
  store : Store
  deriving DecidableEq, Repr

/-- The POST /generate-historical-data handler: resolve `days` from the body,
run `generateHistoricalData`, answer 200/success on completion and
500/failure when it throws. -/
def adminGenerateHistoricalData (bodyDays : Option ℚ)
    (registry : Except String (List SolarUnit))
    (act : SolarUnit → ℤ → Store → Except String Store)
    (todayMidnight : ℤ) (store : Store) : AdminResponse :=
  let days := resolveDays bodyDays
  match generateHistoricalData days registry act todayMidnight store with
  | .ok r => { status := 200, success := true, store := r.1 }
  | .error _ => { status := 500, success := false, store := store }

/-- A concrete active unit used by witnesses and counterexamples. -/
def sampleUnit : SolarUnit :=
  { _id := "unit-1", serialNumber := "SU-TEST-2024", name := "Rooftop 1", capacity := some 5000 }

/-- 2025-12-01T00:00Z in minutes since the epoch (20423 days). -/
def dec01_2025 : ℤ := 20423 * 1440

/-- A concrete record with pre-anomaly energy 1000, for witnesses. -/
def rec1000 : EnergyRecord :=
  { serialNumber := "SU-TEST-2024", solarUnitId := "unit-1", timestamp := 0,
    energyGenerated := 1000, peakPower := 1200, efficiency := 90, temperature := 30 }

/-- A second rule whose selector (whole-day match on 2025-12-05) overlaps
SUDDEN_DROP's selector at hour 11; used to exercise the overlap case. -/
def overlapRule : AnomalyPattern :=
  { type := "TEST_OVERLAP", date := some "2025-12-05",
    apply := fun _ r => { r with energyGenerated := 999 } }

/-- The hour-10 slot record synthesized for 2025-12-01 with all random draws
equal to 1/2. -/
def cexBaseRecord : EnergyRecord := mkRecord sampleUnit dec01_2025 10 (1/2) (1/2) (1/2)

/-- C8: for every hour in [22,24) ∪ [0,6) and every capacity (and every
random draw), the curve model returns exactly 0. -/
theorem curveModel_night_zero (hour : ℤ) (capacity rand : ℚ)
    (h : (22 ≤ hour ∧ hour < 24) ∨ (0 ≤ hour ∧ hour < 6)) :
    calculateEnergyGeneration hour capacity rand = 0 := by
  have h' : 22 ≤ hour ∨ hour < 6 := by omega
  unfold calculateEnergyGeneration
  rw [if_pos h']

/-- Witness for C8 at hour 23, capacity 5000. -/
theorem curveModel_night_zero_witness :
    ((22 ≤ (23:ℤ) ∧ (23:ℤ) < 24) ∨ (0 ≤ (23:ℤ) ∧ (23:ℤ) < 6)) ∧
    calculateEnergyGeneration 23 5000 (1/2) = 0 :=
  ⟨Or.inl ⟨by norm_num, by norm_num⟩,
   curveModel_night_zero 23 5000 (1/2) (Or.inl ⟨by norm_num, by norm_num⟩)⟩

/-- C7: for every capacity c > 0 and every random draw in [0,1], the curve
model's output at hour 12 and at hour 13 lies within ±10% of 0.75 × c. -/
theorem curveModel_peak_band (c rand : ℚ) (hc : 0 < c) (h0 : 0 ≤ rand) (h1 : rand ≤ 1) :
    |calculateEnergyGeneration 12 c rand - (3/4) * c| ≤ (1/10) * ((3/4) * c) ∧
    |calculateEnergyGeneration 13 c rand - (3/4) * c| ≤ (1/10) * ((3/4) * c) := by
  have e12 : calculateEnergyGeneration 12 c rand
      = c * (75/100) * (1 + (rand * (15/100) - 75/1000)) := by
    norm_num [calculateEnergyGeneration]
  have e13 : calculateEnergyGeneration 13 c rand
      = c * (75/100) * (1 + (rand * (15/100) - 75/1000)) := by
    norm_num [calculateEnergyGeneration]
  constructor
  · rw [e12, abs_le]
    constructor <;> nlinarith
  · rw [e13, abs_le]
    constructor <;> nlinarith

/-- Witness for C7 at c = 4000, rand = 1/2. -/
theorem curveModel_peak_band_witness :
    (0:ℚ) < 4000 ∧ (0:ℚ) ≤ 1/2 ∧ (1/2:ℚ) ≤ 1 ∧
    (|calculateEnergyGeneration 12 4000 (1/2) - (3/4) * 4000| ≤ (1/10) * ((3/4) * 4000) ∧
     |calculateEnergyGeneration 13 4000 (1/2) - (3/4) * 4000| ≤ (1/10) * ((3/4) * 4000)) :=
  ⟨by norm_num, by norm_num, by norm_num,
   curveModel_peak_band 4000 (1/2) (by norm_num) (by norm_num) (by norm_num)⟩

/-- C9: for a record dated 2025-12-05 at hour 11 with pre-anomaly
energyGenerated = 1000, the SUDDEN_DROP rule matches (hour 11 lies in its
[9,15) window) and the post-anomaly energyGenerated is exactly
300 = round(1000 × 0.3), with the anomaly flag set. -/
theorem suddenDrop_scenario (rand : ℚ) (r : EnergyRecord) (h : r.energyGenerated = 1000) :
    shouldApplyPattern SUDDEN_DROP "2025-12-05" 11 = true ∧
    (applyAnomalyPatterns ANOMALY_PATTERNS "2025-12-05" 11 rand r).1.energyGenerated = 300 ∧
    (applyAnomalyPatterns ANOMALY_PATTERNS "2025-12-05" 11 rand r).2 = true := by
  have hz : shouldApplyPattern ZERO_GENERATION "2025-12-05" 11 = false := by decide
  have hs : shouldApplyPattern SUDDEN_DROP "2025-12-05" 11 = true := by decide
  refine ⟨hs, ?_, ?_⟩
  · simp only [ANOMALY_PATTERNS, applyAnomalyPatterns, hz, hs, if_true, if_false,
      Bool.false_eq_true, ite_true, ite_false]
    simp only [SUDDEN_DROP, jsRound, h]
    norm_num
  · simp only [ANOMALY_PATTERNS, applyAnomalyPatterns, hz, hs, Bool.false_eq_true,
      ite_true, ite_false]

/-- Witness for C9 with a concrete record. -/
theorem suddenDrop_scenario_witness :
    rec1000.energyGenerated = 1000 ∧
    (shouldApplyPattern SUDDEN_DROP "2025-12-05" 11 = true ∧
     (applyAnomalyPatterns ANOMALY_PATTERNS "2025-12-05" 11 (1/2) rec1000).1.energyGenerated = 300 ∧
     (applyAnomalyPatterns ANOMALY_PATTERNS "2025-12-05" 11 (1/2) rec1000).2 = true) :=
  ⟨rfl, suddenDrop_scenario (1/2) rec1000 rfl⟩

/-- C6: the curve model output is nonnegative for every hour, positive
capacity and random draw in [0,1]; every anomaly transform keeps a
nonnegative energy nonnegative (given a draw in [0,1]); and the three
multiplicative transforms (SUDDEN_DROP, CAPACITY_FACTOR, IRREGULAR_PATTERN)
produce a whole-unit (integer) energy via rounding. -/
theorem energy_nonneg_invariant :
    (∀ (hour : ℤ) (capacity rand : ℚ), 0 < capacity → 0 ≤ rand → rand ≤ 1 →
      0 ≤ calculateEnergyGeneration hour capacity rand) ∧
    (∀ p ∈ ANOMALY_PATTERNS, ∀ (rand : ℚ) (r : EnergyRecord),
      0 ≤ rand → 0 ≤ r.energyGenerated → 0 ≤ (p.apply rand r).energyGenerated) ∧
    (∀ p ∈ [SUDDEN_DROP, CAPACITY_FACTOR, IRREGULAR_PATTERN], ∀ (rand : ℚ) (r : EnergyRecord),
      ∃ n : ℤ, (p.apply rand r).energyGenerated = (n : ℚ)) := by
  refine ⟨?_, ?_, ?_⟩
  · intro hour capacity rand hc h0 h1
    unfold calculateEnergyGeneration
    split_ifs
    · exact le_rfl
    · exact le_max_left 0 _
    · have hv : (0:ℚ) ≤ 1 + (rand * (15/100) - 75/1000) := by nlinarith
      exact mul_nonneg (mul_nonneg hc.le (by norm_num)) hv
    · exact le_max_left 0 _
    · exact le_max_left 0 _
    · exact le_rfl
  · intro p hp rand r h0 hr
    simp only [ANOMALY_PATTERNS, List.mem_cons, List.not_mem_nil, or_false] at hp
    rcases hp with rfl | rfl | rfl | rfl | rfl
    · simp [ZERO_GENERATION]
    · simp only [SUDDEN_DROP, jsRound]
      have hfl : (0:ℤ) ≤ ⌊r.energyGenerated * (3/10) + 1/2⌋ := by
        rw [Int.le_floor]
        push_cast
        nlinarith
      exact_mod_cast hfl
    · simp only [CAPACITY_FACTOR, jsRound]
      have hfl : (0:ℤ) ≤ ⌊r.energyGenerated * (4/10) + 1/2⌋ := by
        rw [Int.le_floor]
        push_cast
        nlinarith
      exact_mod_cast hfl
    · simp only [IRREGULAR_PATTERN, jsRound]
      split_ifs
      · have hfl : (0:ℤ) ≤ ⌊r.energyGenerated * (5/2) + 1/2⌋ := by
          rw [Int.le_floor]
          push_cast
          nlinarith
        exact_mod_cast hfl
      · have hfl : (0:ℤ) ≤ ⌊r.energyGenerated * (4/10) + 1/2⌋ := by
          rw [Int.le_floor]
          push_cast
          nlinarith
        exact_mod_cast hfl
    · simp only [IRREGULAR_PATTERN_NIGHT]
      nlinarith
  · intro p hp rand r
    simp only [List.mem_cons, List.not_mem_nil, or_false] at hp
    rcases hp with rfl | rfl | rfl
    · exact ⟨jsRound (r.energyGenerated * (3/10)), rfl⟩
    · exact ⟨jsRound (r.energyGenerated * (4/10)), rfl⟩
    · exact ⟨jsRound (r.energyGenerated * (if rand > 1/2 then 5/2 else 4/10)), rfl⟩

/-- Witness for C6 at hour 10, capacity 5000, rand 1/2, and the SUDDEN_DROP
transform on a record with energy 1000. -/
theorem energy_nonneg_invariant_witness :
    (0:ℚ) < 5000 ∧ (0:ℚ) ≤ 1/2 ∧ (1/2:ℚ) ≤ 1 ∧
    0 ≤ calculateEnergyGeneration 10 5000 (1/2) ∧
    0 ≤ (SUDDEN_DROP.apply (1/2) rec1000).energyGenerated :=
  ⟨by norm_num, by norm_num, by norm_num,
   energy_nonneg_invariant.1 10 5000 (1/2) (by norm_num) (by norm_num) (by norm_num),
   energy_nonneg_invariant.2.1 SUDDEN_DROP (by simp [ANOMALY_PATTERNS]) (1/2) rec1000
     (by norm_num) (by norm_num [rec1000])⟩

/-- C3: first-match-wins in the anomaly catalog loop: the first rule whose
selector matches has its transform applied and no later rule is evaluated
(so a record matching two rules receives exactly the first-declared rule's
effect); if no rule matches, the record is returned unchanged with the
anomaly flag false. -/
theorem anomaly_first_match_wins (dateString : String) (hour : ℤ) (rand : ℚ)
    (r : EnergyRecord) :
    (∀ (l1 : List AnomalyPattern) (p : AnomalyPattern) (l2 : List AnomalyPattern),
      (∀ q ∈ l1, shouldApplyPattern q dateString hour = false) →
      shouldApplyPattern p dateString hour = true →
      applyAnomalyPatterns (l1 ++ p :: l2) dateString hour rand r = (p.apply rand r, true)) ∧
    (∀ L : List AnomalyPattern,
      (∀ q ∈ L, shouldApplyPattern q dateString hour = false) →
      applyAnomalyPatterns L dateString hour rand r = (r, false)) := by
  constructor
  · intro l1 p l2 hnone hp
    induction l1 with
    | nil => simp [applyAnomalyPatterns, hp]
    | cons q qs ih =>
      have hq : shouldApplyPattern q dateString hour = false := hnone q (List.mem_cons_self q qs)
      simp only [List.cons_append, applyAnomalyPatterns, hq, Bool.false_eq_true, if_false]
      exact ih fun x hx => hnone x (List.mem_cons_of_mem q hx)
  · intro L hnone
    induction L with
    | nil => rfl
    | cons q qs ih =>
      have hq : shouldApplyPattern q dateString hour = false := hnone q (List.mem_cons_self q qs)
      simp only [applyAnomalyPatterns, hq, Bool.false_eq_true, if_false]
      exact ih fun x hx => hnone x (List.mem_cons_of_mem q hx)

/-- Witness for C3: both SUDDEN_DROP and overlapRule match (2025-12-05, 11),
and the catalog yields exactly the first-declared rule's effect. -/
theorem anomaly_first_match_wins_witness :
    shouldApplyPattern SUDDEN_DROP "2025-12-05" 11 = true ∧
    shouldApplyPattern overlapRule "2025-12-05" 11 = true ∧
    applyAnomalyPatterns [SUDDEN_DROP, overlapRule] "2025-12-05" 11 0 rec1000 =
      (SUDDEN_DROP.apply 0 rec1000, true) :=
  ⟨by decide, by decide,
   (anomaly_first_match_wins "2025-12-05" 11 0 rec1000).1 [] SUDDEN_DROP [overlapRule]
     (fun q hq => absurd hq (List.not_mem_nil q)) (by decide)⟩

/-- C2 counterexample: the scheduler path persists slot records without
running them through the anomaly catalog. The hour-10 record of 2025-12-01
is persisted by generateRecordsForUnit with positive energy, although the
catalog (ZERO_GENERATION matches that date/hour) maps it to a record with
energy 0 — so the persisted record is not the catalog's output. -/
theorem scheduler_bypasses_anomaly_catalog :
    cexBaseRecord ∈ (generateRecordsForUnit sampleUnit dec01_2025 (fun _ _ => 1/2) []).1 ∧
    shouldApplyPattern ZERO_GENERATION "2025-12-01" 10 = true ∧
    0 < cexBaseRecord.energyGenerated ∧
    (applyAnomalyPatterns ANOMALY_PATTERNS "2025-12-01" 10 (1/2) cexBaseRecord).1.energyGenerated
      = 0 ∧
    (applyAnomalyPatterns ANOMALY_PATTERNS "2025-12-01" 10 (1/2) cexBaseRecord).1
      ≠ cexBaseRecord := by
  have hz : shouldApplyPattern ZERO_GENERATION "2025-12-01" 10 = true := by decide
  have henergy : cexBaseRecord.energyGenerated = 7000/3 := by
    show (mkRecord sampleUnit dec01_2025 10 (1/2) (1/2) (1/2)).energyGenerated = 7000/3
    simp only [mkRecord, effectiveCapacity, sampleUnit, calculateEnergyGeneration]
    norm_num
  have happlied :
      (applyAnomalyPatterns ANOMALY_PATTERNS "2025-12-01" 10 (1/2) cexBaseRecord).1.energyGenerated
        = 0 := by
    simp only [ANOMALY_PATTERNS, applyAnomalyPatterns, hz, ite_true]
    simp [ZERO_GENERATION]
  refine ⟨?_, hz, ?_, happlied, ?_⟩
  · have hstore : (generateRecordsForUnit sampleUnit dec01_2025 (fun _ _ => 1/2) []).1 =
        synthesizeRecords sampleUnit dec01_2025 (fun _ _ => 1/2) := by
      simp [generateRecordsForUnit, countDocuments]
    rw [hstore]
    exact List.mem_map.mpr ⟨10, by decide, rfl⟩
  · rw [henergy]
    norm_num
  · intro heq
    rw [heq, henergy] at happlied
    norm_num at happlied

/-- C2 amended: where the anomaly catalog is applied (the seeding path), a
matching rule's transform replaces energyGenerated and only that field — all
other fields of the pre-anomaly record are retained. (The scheduler path
does not run its records through the catalog; see the counterexample.) -/
theorem anomaly_transform_only_energy (dateString : String) (hour : ℤ) (rand : ℚ)
    (r : EnergyRecord) :
    (applyAnomalyPatterns ANOMALY_PATTERNS dateString hour rand r).1.serialNumber
      = r.serialNumber ∧
    (applyAnomalyPatterns ANOMALY_PATTERNS dateString hour rand r).1.solarUnitId
      = r.solarUnitId ∧
    (applyAnomalyPatterns ANOMALY_PATTERNS dateString hour rand r).1.timestamp = r.timestamp ∧
    (applyAnomalyPatterns ANOMALY_PATTERNS dateString hour rand r).1.peakPower = r.peakPower ∧
    (applyAnomalyPatterns ANOMALY_PATTERNS dateString hour rand r).1.efficiency = r.efficiency ∧
    (applyAnomalyPatterns ANOMALY_PATTERNS dateString hour rand r).1.temperature
      = r.temperature := by
  simp only [ANOMALY_PATTERNS, applyAnomalyPatterns]
  split_ifs <;>
    simp [ZERO_GENERATION, SUDDEN_DROP, CAPACITY_FACTOR, IRREGULAR_PATTERN,
      IRREGULAR_PATTERN_NIGHT]

/-- C4: the batch built for one (unit, day) has exactly 12 records whose
timestamps are exactly the instants 00:00, 02:00, ..., 22:00 of that UTC
day (the process time zone being UTC), every one on the 2-hour grid. -/
theorem batch_timestamps_on_grid (u : SolarUnit) (date : ℤ) (rand : ℤ → ℕ → ℚ) :
    (synthesizeRecords u date rand).length = 12 ∧
    (synthesizeRecords u date rand).map (fun rec => rec.timestamp) =
      [date, date + 120, date + 240, date + 360, date + 480, date + 600,
       date + 720, date + 840, date + 960, date + 1080, date + 1200, date + 1320] ∧
    ∀ rec ∈ synthesizeRecords u date rand, ∃ k : ℤ, 0 ≤ k ∧ k < 12 ∧
      rec.timestamp = date + 120 * k := by
  refine ⟨rfl, ?_, ?_⟩
  · simp only [synthesizeRecords, slotHours, List.map_cons, List.map_nil, mkRecord]
    norm_num
  · intro rec hrec
    simp only [synthesizeRecords, slotHours, List.map_cons, List.map_nil, List.mem_cons,
      List.not_mem_nil, or_false] at hrec
    rcases hrec with rfl|rfl|rfl|rfl|rfl|rfl|rfl|rfl|rfl|rfl|rfl|rfl
    · exact ⟨0, by norm_num, by norm_num, by norm_num [mkRecord]⟩
    · exact ⟨1, by norm_num, by norm_num, by norm_num [mkRecord]⟩
    · exact ⟨2, by norm_num, by norm_num, by norm_num [mkRecord]⟩
    · exact ⟨3, by norm_num, by norm_num, by norm_num [mkRecord]⟩
    · exact ⟨4, by norm_num, by norm_num, by norm_num [mkRecord]⟩
    · exact ⟨5, by norm_num, by norm_num, by norm_num [mkRecord]⟩
    · exact ⟨6, by norm_num, by norm_num, by norm_num [mkRecord]⟩
    · exact ⟨7, by norm_num, by norm_num, by norm_num [mkRecord]⟩
    · exact ⟨8, by norm_num, by norm_num, by norm_num [mkRecord]⟩
    · exact ⟨9, by norm_num, by norm_num, by norm_num [mkRecord]⟩
    · exact ⟨10, by norm_num, by norm_num, by norm_num [mkRecord]⟩
    · exact ⟨11, by norm_num, by norm_num, by norm_num [mkRecord]⟩

/-- Witness for C4: the hour-10 record of the 2025-12-01 batch lies on the
2-hour grid. -/
theorem batch_timestamps_on_grid_witness :
    cexBaseRecord ∈ synthesizeRecords sampleUnit dec01_2025 (fun _ _ => 1/2) ∧
    (∃ k : ℤ, 0 ≤ k ∧ k < 12 ∧ cexBaseRecord.timestamp = dec01_2025 + 120 * k) :=
  ⟨List.mem_map.mpr ⟨10, by decide, rfl⟩,
   (batch_timestamps_on_grid sampleUnit dec01_2025 (fun _ _ => 1/2)).2.2 cexBaseRecord
     (List.mem_map.mpr ⟨10, by decide, rfl⟩)⟩

/-- Counting over an appended store splits additively. -/
theorem countDocuments_append (s1 s2 : Store) (serial : String) (lo hi : ℤ) :
    countDocuments (s1 ++ s2) serial lo hi =
      countDocuments s1 serial lo hi + countDocuments s2 serial lo hi := by
  simp [countDocuments, List.filter_append]

/-- A batch record for hour `h ∈ [0, 24)` satisfies the scheduler's
existence-check query for its own unit and day window. -/
theorem matchesQuery_mkRecord (u : SolarUnit) (date h : ℤ) (r1 r2 r3 : ℚ)
    (h0 : 0 ≤ h) (h24 : h < 24) :
    matchesQuery u.serialNumber date (date + minutesPerDay) (mkRecord u date h r1 r2 r3)
      = true := by
  simp only [matchesQuery, mkRecord, minutesPerDay, beq_self_eq_true, Bool.true_and,
    Bool.and_eq_true, decide_eq_true_eq]
  omega

/-- The full day's batch contributes exactly 12 records to the scheduler's
existence-check count. -/
theorem countDocuments_batch (u : SolarUnit) (date : ℤ) (rand : ℤ → ℕ → ℚ) :
    countDocuments (synthesizeRecords u date rand) u.serialNumber date (date + minutesPerDay)
      = 12 := by
  have hall : ∀ rec ∈ synthesizeRecords u date rand,
      matchesQuery u.serialNumber date (date + minutesPerDay) rec = true := by
    intro rec hrec
    simp only [synthesizeRecords, slotHours, List.map_cons, List.map_nil, List.mem_cons,
      List.not_mem_nil, or_false] at hrec
    rcases hrec with rfl|rfl|rfl|rfl|rfl|rfl|rfl|rfl|rfl|rfl|rfl|rfl <;>
      exact matchesQuery_mkRecord u date _ _ _ _ (by norm_num) (by norm_num)
  unfold countDocuments
  rw [List.filter_eq_self.mpr hall]
  rfl

/-- C1: idempotence of the per-(unit, day) generation run. Starting from a
store with no records for the unit's day window, the first invocation
inserts the 12-record batch; the second observes count 12 > 0, performs no
insert (store unchanged) and reports a skip — exactly 12 records remain for
that (unit, day). -/
theorem generationRun_idempotent (u : SolarUnit) (date : ℤ) (rand1 rand2 : ℤ → ℕ → ℚ)
    (store : Store)
    (h : countDocuments store u.serialNumber date (date + minutesPerDay) = 0) :
    (generateRecordsForUnit u date rand1 store).2 = .generated 12 ∧
    countDocuments (generateRecordsForUnit u date rand1 store).1 u.serialNumber date
      (date + minutesPerDay) = 12 ∧
    generateRecordsForUnit u date rand2 (generateRecordsForUnit u date rand1 store).1 =
      ((generateRecordsForUnit u date rand1 store).1, .skipped) ∧
    countDocuments (generateRecordsForUnit u date rand2
        (generateRecordsForUnit u date rand1 store).1).1 u.serialNumber date
      (date + minutesPerDay) = 12 := by
  have hlen : (synthesizeRecords u date rand1).length = 12 := rfl
  have h1 : generateRecordsForUnit u date rand1 store =
      (store ++ synthesizeRecords u date rand1, .generated 12) := by
    unfold generateRecordsForUnit
    rw [h]
    simp [hlen]
  have hcount1 : countDocuments (store ++ synthesizeRecords u date rand1) u.serialNumber date
      (date + minutesPerDay) = 12 := by
    rw [countDocuments_append, h, countDocuments_batch]
  have h2 : generateRecordsForUnit u date rand2 (store ++ synthesizeRecords u date rand1) =
      (store ++ synthesizeRecords u date rand1, .skipped) := by
    unfold generateRecordsForUnit
    rw [hcount1]
    simp
  rw [h1]
  exact ⟨rfl, hcount1, h2, by rw [h2]; exact hcount1⟩

/-- Witness for C1: empty store, sample unit, day 2025-12-01. -/
theorem generationRun_idempotent_witness :
    countDocuments [] sampleUnit.serialNumber dec01_2025 (dec01_2025 + minutesPerDay) = 0 ∧
    ((generateRecordsForUnit sampleUnit dec01_2025 (fun _ _ => 1/2) []).2 = .generated 12 ∧
     countDocuments (generateRecordsForUnit sampleUnit dec01_2025 (fun _ _ => 1/2) []).1
       sampleUnit.serialNumber dec01_2025 (dec01_2025 + minutesPerDay) = 12 ∧
     generateRecordsForUnit sampleUnit dec01_2025 (fun _ _ => 1/3)
         (generateRecordsForUnit sampleUnit dec01_2025 (fun _ _ => 1/2) []).1 =
       ((generateRecordsForUnit sampleUnit dec01_2025 (fun _ _ => 1/2) []).1, .skipped) ∧
     countDocuments (generateRecordsForUnit sampleUnit dec01_2025 (fun _ _ => 1/3)
         (generateRecordsForUnit sampleUnit dec01_2025 (fun _ _ => 1/2) []).1).1
       sampleUnit.serialNumber dec01_2025 (dec01_2025 + minutesPerDay) = 12) :=
  ⟨rfl, generationRun_idempotent sampleUnit dec01_2025 (fun _ _ => 1/2) (fun _ _ => 1/3) [] rfl⟩

/-- C5: the daily run errors exactly when the registry fetch errors; an
empty unit list is a no-op success with zero inserts; a per-unit failure is
caught, marks only that unit failed, and the remaining units are still
processed. -/
theorem dailyRun_error_policy (act : SolarUnit → Store → Except String Store) (store : Store) :
    (∀ e, generateDailyData (.error e) act store = .error e) ∧
    (∀ units, ∃ v, generateDailyData (.ok units) act store = .ok v) ∧
    generateDailyData (.ok []) act store = .ok (store, []) ∧
    (∀ (u : SolarUnit) (us : List SolarUnit) (e : String), act u store = .error e →
      generateDailyData (.ok (u :: us)) act store =
        .ok ((runUnitsOnce act us store).1, (u._id, false) :: (runUnitsOnce act us store).2)) := by
  refine ⟨fun e => rfl, ?_, rfl, ?_⟩
  · intro units
    cases units with
    | nil => exact ⟨(store, []), rfl⟩
    | cons u us => exact ⟨runUnitsOnce act (u :: us) store, by simp [generateDailyData]⟩
  · intro u us e he
    simp [generateDailyData, runUnitsOnce, he]

/-- Witness for C5: one unit whose generation fails; the run still succeeds
and records the unit as failed. -/
theorem dailyRun_error_policy_witness :
    (fun (_ : SolarUnit) (_ : Store) => (Except.error "store down" : Except String Store))
        sampleUnit [] = .error "store down" ∧
    generateDailyData (.ok [sampleUnit]) (fun _ _ => .error "store down") [] =
      .ok ([], [(sampleUnit._id, false)]) := by
  refine ⟨rfl, ?_⟩
  have h := (dailyRun_error_policy (fun _ _ => .error "store down") []).2.2.2
    sampleUnit [] "store down" rfl
  simpa [runUnitsOnce] using h

/-- C10: the admin generate-historical route defaults a missing or falsy-0
`days` to 7, passes any other value through unvalidated (negative and
non-integer values included), and a negative value runs over zero
(unit, day) pairs (store unchanged) yet is reported as a 200 success. -/
theorem admin_historical_days_policy (units : List SolarUnit)
    (act : SolarUnit → ℤ → Store → Except String Store) (todayMidnight : ℤ) (store : Store) :
    resolveDays none = 7 ∧ resolveDays (some 0) = 7 ∧
    resolveDays (some (-3)) = -3 ∧ resolveDays (some (5/2)) = 5/2 ∧
    adminGenerateHistoricalData none (.ok units) act todayMidnight store =
      adminGenerateHistoricalData (some 7) (.ok units) act todayMidnight store ∧
    adminGenerateHistoricalData (some (-3)) (.ok units) act todayMidnight store =
      { status := 200, success := true, store := store } := by
  have hres0 : resolveDays (some 0) = 7 := by norm_num [resolveDays]
  have hres7 : resolveDays (some 7) = 7 := by norm_num [resolveDays]
  have hresneg : resolveDays (some (-3)) = -3 := by norm_num [resolveDays]
  have hceil : (⌈(-3 : ℚ)⌉ : ℤ) = -3 := by
    rw [show ((-3 : ℚ)) = ((-3 : ℤ) : ℚ) by norm_num]
    exact Int.ceil_intCast _
  have hdays : historicalDayCount (-3) = 0 := by
    simp [historicalDayCount, hceil]
  refine ⟨rfl, hres0, hresneg, by norm_num [resolveDays], ?_, ?_⟩
  · unfold adminGenerateHistoricalData
    rw [show resolveDays none = 7 from rfl, hres7]
  · simp only [adminGenerateHistoricalData, generateHistoricalData, hresneg, hdays,
      List.range_zero, List.foldl_nil]

end SolarDashboard
